import Mathlib

/-!
Verification of the animation-orchestration core of the pixi repository:
shallow Lean embeddings of `Character`, `CharacterManager`, `SceneManager`,
`BubbleText`, `Scene` and the `Cutscene` timeline builder, together with
theorems settling the spec claims about them.

Coordinates and times are rationals.  JavaScript truthiness of optional
numeric fields (`a || b` chains in the source, where both `undefined` and
`0` are falsy) is modelled by the `truthy` function.
-/

/-- Facing direction of a character sprite (`direction` in Character.js). -/
inductive Dir where
  | left
  | right
deriving DecidableEq, Repr

/-- JavaScript truthiness of an optional numeric field: `undefined` and `0`
are both falsy, every other number is truthy. -/
def truthy (o : Option ℚ) : Option ℚ :=
  match o with
  | none => none
  | some v => if v = 0 then none else some v

/-- Math.abs on rationals, written so that it evaluates by kernel
reduction. -/
def jsAbs (q : ℚ) : ℚ :=
  if q < 0 then -q else q

/-- A position object as passed to the movement methods: an `x` coordinate
plus optional `y` and `groundY` fields (absent fields are `undefined`). -/
structure Target where
  x : ℚ
  y : Option ℚ
  groundY : Option ℚ
deriving DecidableEq, Repr

/-- State of a `Character` (src/src/game/Character.js): sprite position,
facing, current animation label, motion flags, the jump height option, and
the clip names its spritesheet provides (`none` when `spritesheet` or
`spritesheet.animations` is absent).  The constructor builds an animated
sprite exactly when the spritesheet provides an idle clip (Character.js:30);
otherwise the sprite is a plain graphics container, whose `play` method does
not exist — `crashed` records that a TypeError escaped from
`this.sprite.play()` (Character.js:274) on such a character. -/
structure Character where
  x : ℚ
  y : ℚ
  groundY : ℚ
  direction : Dir
  currentAnimation : String
  isMoving : Bool
  isGrounded : Bool
  hasMoveTween : Bool
  jumpHeight : ℚ
  clips : Option (List String)
  crashed : Bool
deriving DecidableEq, Repr

/-- Character.playAnimation: no-op when the clip is already playing (unless
forced); warns and leaves the state unchanged when the spritesheet is absent
or lacks the named clip; otherwise assigns `currentAnimation` and the sprite
textures and calls `this.sprite.play()`.  The sprite has a `play` method
exactly when the constructor saw an idle clip (Character.js:30); on a
plain-container character a present clip therefore throws a TypeError at
Character.js:274, after `currentAnimation` was already reassigned — recorded
by `crashed`. -/
def Character.playAnimation (s : Character) (name : String) (force : Bool) : Character :=
  if !force && s.currentAnimation = name then s
  else
    match s.clips with
    | none => s
    | some cs =>
      if name ∈ cs then
        if "idle" ∈ cs then { s with currentAnimation := name }
        else { s with currentAnimation := name, crashed := true }
      else s

/-- Character.setDirection: no-op when the direction is unchanged, otherwise
updates `direction` (mirroring the sprite scale, not tracked here). -/
def Character.setDirection (s : Character) (d : Dir) : Character :=
  if d = s.direction then s else { s with direction := d }

/-- The vertical-target resolution both moveTo and jumpTo perform:
`position.groundY || position.y || this.groundY` under JS truthiness. -/
def resolveTargetY (p : Target) (g : ℚ) : ℚ :=
  ((truthy p.groundY).orElse (fun _ => truthy p.y)).getD g

/-- The state Character.moveTo builds before its playAnimation call
(Character.js:112-133): the previous tween is killed, the character faces
the target when the horizontal delta exceeds the 5-unit dead zone, and
isMoving is set. -/
def Character.moveToPre (s : Character) (p : Target) : Character :=
  let s0 := { s with hasMoveTween := false }
  let deltaX := p.x - s.x
  let s1 := if 5 < jsAbs deltaX then
      Character.setDirection s0 (if 0 < deltaX then Dir.right else Dir.left)
    else s0
  { s1 with isMoving := true }

/-- Call-time effects of Character.moveTo: the pre-state above, then the
switch to the movement animation, then the creation of the position tween.
When the clip switch throws (`crashed` set), the exception propagates out
of moveTo before the tween is created, so the mutations made up to the
throw persist but no tween exists. -/
def Character.moveTo (s : Character) (p : Target) (animationType : String) : Character :=
  if (Character.playAnimation (Character.moveToPre s p) animationType false).crashed = true then
    Character.playAnimation (Character.moveToPre s p) animationType false
  else
    { Character.playAnimation (Character.moveToPre s p) animationType false with
        hasMoveTween := true }

/-- The onComplete handler of the movement tween together with the tween
having driven the position to its target: `isMoving` clears, `groundY`
becomes the arrival y, the animation reverts to idle, the tween handle is
dropped. -/
def Character.moveToOnComplete (s : Character) (targetX targetY : ℚ) : Character :=
  let s1 := { s with x := targetX, y := targetY, isMoving := false, groundY := targetY }
  let s2 := Character.playAnimation s1 "idle" false
  { s2 with hasMoveTween := false }

/-- Full effect of a moveTo call whose tween then completes undisturbed. -/
def Character.moveToRun (s : Character) (p : Target) (animationType : String) : Character :=
  Character.moveToOnComplete (Character.moveTo s p animationType) p.x
    (resolveTargetY p s.groundY)

/-- The handle Character.jumpTo returns when it does start a jump: the gsap
timeline driving the arc, recorded by its targets. -/
structure JumpHandle where
  targetX : ℚ
  targetY : ℚ
  height : ℚ
deriving DecidableEq, Repr

/-- Character.jumpTo: returns null and changes nothing while airborne;
otherwise resolves the landing point, faces the target past the dead zone,
leaves the ground, plays the jump clip and starts the arc timeline.  The
landing point is resolved before the clip switch, which on a plain-container
character with a jump clip throws (`crashed` set in the returned state); the
source then propagates the exception and creates no timeline, so the handle
component has a runtime counterpart only for crash-free calls. -/
def Character.jumpTo (s : Character) (p : Target) (height : Option ℚ) :
    Option JumpHandle × Character :=
  if s.isGrounded = false then (none, s)
  else
    let h := (truthy height).getD s.jumpHeight
    let targetX := p.x
    let targetY := resolveTargetY p s.groundY
    let deltaX := targetX - s.x
    let s1 := if 5 < jsAbs deltaX then
        Character.setDirection s (if 0 < deltaX then Dir.right else Dir.left)
      else s
    let s2 := { s1 with isGrounded := false }
    let s3 := Character.playAnimation s2 "jump" false
    (some { targetX := targetX, targetY := targetY, height := h }, s3)

/-- A Character whose spritesheet provides the idle clip. -/
def Character.idleAvailable (s : Character) : Prop :=
  ∃ cs, s.clips = some cs ∧ "idle" ∈ cs

/-! ## Cutscene timeline builder (src/src/utils/Cutscene.js)

The builder records each scheduling call as an entry with a resolved start
time, mirroring gsap position-parameter semantics: an absolute time, a
`+=offset` anchor past the current end of the timeline, or a `-=offset`
overlap anchor before it.  `timeline.add(cb)` and `timeline.to` with no
position parameter place the new child at the current end of the timeline. -/

/-- A gsap position parameter as used by the Cutscene methods. -/
inductive Anchor where
  | abs (t : ℚ)
  | relEnd (offset : ℚ)
  | overlap (offset : ℚ)
deriving DecidableEq, Repr

/-- The `atTime || "+=0"` idiom of the source under JS truthiness: an omitted
argument and the falsy absolute time 0 both become the `+=0` anchor; anchor
strings are non-empty and hence always truthy. -/
def anchorOrDefault (a : Option Anchor) : Anchor :=
  match a with
  | none => Anchor.relEnd 0
  | some (Anchor.abs t) => if t = 0 then Anchor.relEnd 0 else Anchor.abs t
  | some (Anchor.relEnd o) => Anchor.relEnd o
  | some (Anchor.overlap o) => Anchor.overlap o

/-- Resolution of an anchor to an absolute start time against the end of the
timeline as built so far. -/
def resolveAnchor (endTime : ℚ) : Anchor → ℚ
  | Anchor.abs t => t
  | Anchor.relEnd o => endTime + o
  | Anchor.overlap o => endTime - o

/-- Payload of a scheduled Cutscene action, identifying the method that
scheduled it.  Characters, callbacks and backgrounds are named by numeric
object identities. -/
inductive CAction where
  | waitSpan
  | callFn (fnId : ℕ)
  | faceDir (charId : ℕ) (d : Dir)
  | lookTarget (charId : ℕ) (targetId : ℕ)
  | animateClip (charId : ℕ) (clip : String)
  | speakText (charId : ℕ) (text : String) (dur : ℚ)
  | attackAct (charId : ℕ) (targetId : Option ℕ)
  | hurtAct (charId : ℕ) (force : ℚ)
  | bgChange (bgId : ℕ)
deriving DecidableEq, Repr

/-- One scheduled timeline child: resolved start time, duration, payload. -/
structure Entry where
  start : ℚ
  dur : ℚ
  action : CAction
deriving DecidableEq, Repr

/-- The Cutscene builder state: the scheduled entries and the end of the
timeline as built so far. -/
structure Cutscene where
  entries : List Entry
  endTime : ℚ
deriving DecidableEq, Repr

/-- A freshly constructed Cutscene owns an empty paused timeline. -/
def Cutscene.init : Cutscene :=
  { entries := [], endTime := 0 }

/-- Scheduling one child at an anchor: the entry is appended and the end of
the timeline grows to cover it. -/
def Cutscene.addEntry (c : Cutscene) (a : Anchor) (dur : ℚ) (act : CAction) : Cutscene :=
  let st := resolveAnchor c.endTime a
  { entries := c.entries ++ [{ start := st, dur := dur, action := act }],
    endTime := max c.endTime (st + dur) }

/-- Cutscene.wait: a tween of an empty object for `seconds`, placed at the
end of the timeline. -/
def Cutscene.wait (c : Cutscene) (seconds : ℚ) : Cutscene :=
  Cutscene.addEntry c (Anchor.relEnd 0) seconds CAction.waitSpan

/-- Cutscene.faceDirection: a zero-duration callback at `atTime || "+=0"`. -/
def Cutscene.faceDirection (c : Cutscene) (charId : ℕ) (d : Dir) (atTime : Option Anchor) :
    Cutscene :=
  Cutscene.addEntry c (anchorOrDefault atTime) 0 (CAction.faceDir charId d)

/-- Cutscene.lookAt: a zero-duration callback at `atTime || "+=0"`. -/
def Cutscene.lookAt (c : Cutscene) (charId targetId : ℕ) (atTime : Option Anchor) : Cutscene :=
  Cutscene.addEntry c (anchorOrDefault atTime) 0 (CAction.lookTarget charId targetId)

/-- Cutscene.animate: a zero-duration callback at `atTime || "+=0"`. -/
def Cutscene.animate (c : Cutscene) (charId : ℕ) (clip : String) (atTime : Option Anchor) :
    Cutscene :=
  Cutscene.addEntry c (anchorOrDefault atTime) 0 (CAction.animateClip charId clip)

/-- Cutscene.speak: a zero-duration callback at `atTime || "+=0"` (the bubble
duration is payload, not timeline span). -/
def Cutscene.speak (c : Cutscene) (charId : ℕ) (text : String) (dur : ℚ)
    (atTime : Option Anchor) : Cutscene :=
  Cutscene.addEntry c (anchorOrDefault atTime) 0 (CAction.speakText charId text dur)

/-- Cutscene.attack: a zero-duration callback at `atTime || "+=0"`. -/
def Cutscene.attack (c : Cutscene) (charId : ℕ) (targetId : Option ℕ)
    (atTime : Option Anchor) : Cutscene :=
  Cutscene.addEntry c (anchorOrDefault atTime) 0 (CAction.attackAct charId targetId)

/-- Cutscene.hurt: a zero-duration callback at `atTime || "+=0"`. -/
def Cutscene.hurt (c : Cutscene) (charId : ℕ) (force : ℚ) (atTime : Option Anchor) : Cutscene :=
  Cutscene.addEntry c (anchorOrDefault atTime) 0 (CAction.hurtAct charId force)

/-- Cutscene.changeBackground: a zero-duration callback at `atTime || "+=0"`. -/
def Cutscene.changeBackground (c : Cutscene) (bgId : ℕ) (atTime : Option Anchor) : Cutscene :=
  Cutscene.addEntry c (anchorOrDefault atTime) 0 (CAction.bgChange bgId)

/-- Cutscene.call: the source invokes `this.timeline.add(() => fn && fn())`
with no position parameter, so the callback is placed at the end of the
timeline; the `atTime` argument is accepted but never used. -/
def Cutscene.call (c : Cutscene) (fnId : ℕ) (atTime : Option Anchor) : Cutscene :=
  let _unused := atTime
  Cutscene.addEntry c (Anchor.relEnd 0) 0 (CAction.callFn fnId)

/-! ## Timeline playback transport (spec-modelled)

The Cutscene delegates playback to the gsap timeline engine, which is not
part of this repository; only the transport wrappers `play`, `pause`,
`seek` and the constructor registration of `onComplete` are source code. -/

/-- Modelled from the spec: the gsap playback engine behind
`Cutscene.play/pause/seek` is missing from the repository sources.  Spec §3
and §4.3 describe the transport the Cutscene relies on: a timeline built
paused, a playback cursor advancing at frame rate while playing, pause and
arbitrary seek, and a one-shot completion event fired exactly once when the
cursor reaches the end of the last scheduled action and never re-fired by a
seek landing before the end. -/
structure Playback where
  endTime : ℚ
  cursor : ℚ
  paused : Bool
  hasOnComplete : Bool
  completeFired : Bool
deriving DecidableEq, Repr

/-- The Cutscene constructor: `gsap.timeline({paused: true})` plus the
one-shot registration of the completion callback when one is supplied. -/
def Cutscene.initPlayback (c : Cutscene) (hasOnComplete : Bool) : Playback :=
  { endTime := c.endTime, cursor := 0, paused := true,
    hasOnComplete := hasOnComplete, completeFired := false }

/-- A transport operation: the public controls plus a frame tick. -/
inductive TOp where
  | play
  | pause
  | seek (t : ℚ)
  | tick (dt : ℚ)
deriving DecidableEq, Repr

/-- One transport step; the Bool reports whether the completion callback
fired during the step (it can only fire when one was registered and the
one-shot flag is still clear). -/
def Playback.step (p : Playback) : TOp → Playback × Bool
  | TOp.play => ({ p with paused := false }, false)
  | TOp.pause => ({ p with paused := true }, false)
  | TOp.seek t =>
    let fire := p.hasOnComplete && decide (p.endTime ≤ t) && !p.completeFired
    ({ p with cursor := t, completeFired := p.completeFired || fire }, fire)
  | TOp.tick dt =>
    if p.paused then (p, false)
    else
      let c := min (p.cursor + dt) p.endTime
      let fire := p.hasOnComplete && decide (p.endTime ≤ c) && !p.completeFired
      ({ p with cursor := c, completeFired := p.completeFired || fire }, fire)

/-- Running a sequence of transport operations, counting completion fires. -/
def Playback.run (p : Playback) : List TOp → Playback × ℕ
  | [] => (p, 0)
  | op :: ops =>
    let s := Playback.step p op
    let r := Playback.run s.1 ops
    (r.1, (if s.2 then 1 else 0) + r.2)

/-! ## The two movement paths of Cutscene.move (for the refinement claim)

Observable state-machine transitions of a character: actual direction
changes and actual animation switches.  Both paths are interpreted against
the same character state-machine semantics so their transition traces can
be compared. -/

/-- An externally observable state-machine transition. -/
inductive Tr where
  | dirChange (d : Dir)
  | animChange (a : String)
deriving DecidableEq, Repr

/-- The observable character state the two paths act on. -/
structure SChar where
  x : ℚ
  y : ℚ
  direction : Dir
  anim : String
  clips : List String
deriving DecidableEq, Repr

/-- setDirection against the observable state machine: a transition is
emitted only when the direction actually changes. -/
def SChar.setDir (s : SChar) (d : Dir) : SChar × List Tr :=
  if d = s.direction then (s, []) else ({ s with direction := d }, [Tr.dirChange d])

/-- playAnimation against the observable state machine: a transition is
emitted only when the clip exists and differs from the current one. -/
def SChar.playAnim (s : SChar) (n : String) : SChar × List Tr :=
  if s.anim = n then (s, [])
  else if n ∈ s.clips then ({ s with anim := n }, [Tr.animChange n]) else (s, [])

/-- A plain point target as Cutscene.move receives it. -/
structure Pos where
  x : ℚ
  y : ℚ
deriving DecidableEq, Repr

/-- Call-time effects of Character.moveTo on the observable state machine:
direction from the execution-time horizontal delta past the 5-unit dead
zone, then the walk clip. -/
def SChar.moveCall (s : SChar) (p : Pos) : SChar × List Tr :=
  let deltaX := p.x - s.x
  let r1 := if 5 < jsAbs deltaX then
      SChar.setDir s (if 0 < deltaX then Dir.right else Dir.left)
    else (s, [])
  let r2 := SChar.playAnim r1.1 "walk"
  (r2.1, r1.2 ++ r2.2)

/-- Completion of a surviving movement tween: position reaches the target
and the animation reverts to idle. -/
def SChar.moveComplete (s : SChar) (p : Pos) : SChar × List Tr :=
  let s1 := { s with x := p.x, y := p.y }
  let r := SChar.playAnim s1 "idle"
  (r.1, r.2)

/-- The enhanced path of Cutscene.move over a list of scheduled moves: each
scheduled child is a zero-duration `timeline.add` callback delegating to
Character.moveTo, so the children never advance the timeline and run back
to back on play; each moveTo kills the previous move tween (whose position
has not advanced yet at that same instant), and only the final move's tween
survives to completion. -/
def enhancedRun (s : SChar) : List Pos → SChar × List Tr
  | [] => (s, [])
  | [p] =>
    let r1 := SChar.moveCall s p
    let r2 := SChar.moveComplete r1.1 p
    (r2.1, r1.2 ++ r2.2)
  | p :: q :: rest =>
    let r1 := SChar.moveCall s p
    let r2 := enhancedRun r1.1 (q :: rest)
    (r2.1, r1.2 ++ r2.2)

/-- A scheduled item of the fallback path. -/
inductive FItem where
  | setDirItem (d : Dir)
  | playAnimItem (n : String)
  | tweenItem (p : Pos)
deriving DecidableEq, Repr

/-- Build-time scheduling of the fallback path of Cutscene.move: for every
move the direction decision is taken from the sprite position as of
building the script (the sprite has not moved yet, so every decision uses
the same initial x), then a walk callback and the position tween with idle
reversion on completion are appended to the timeline. -/
def fallbackItems (x0 : ℚ) (cmds : List Pos) : List FItem :=
  cmds.flatMap (fun p =>
    let deltaX := p.x - x0
    (if 5 < jsAbs deltaX then
        [FItem.setDirItem (if 0 < deltaX then Dir.right else Dir.left)]
      else [])
    ++ [FItem.playAnimItem "walk", FItem.tweenItem p])

/-- Sequential execution of the fallback path's scheduled items: the tween
occupies a real span on the timeline, so consecutive moves run strictly in
sequence, each reverting to idle on completion. -/
def execFItems (s : SChar) : List FItem → SChar × List Tr
  | [] => (s, [])
  | FItem.setDirItem d :: rest =>
    let r1 := SChar.setDir s d
    let r2 := execFItems r1.1 rest
    (r2.1, r1.2 ++ r2.2)
  | FItem.playAnimItem n :: rest =>
    let r1 := SChar.playAnim s n
    let r2 := execFItems r1.1 rest
    (r2.1, r1.2 ++ r2.2)
  | FItem.tweenItem p :: rest =>
    let r1 := SChar.moveComplete s p
    let r2 := execFItems r1.1 rest
    (r2.1, r1.2 ++ r2.2)

/-- The fallback path of Cutscene.move over a list of scheduled moves. -/
def fallbackRun (s : SChar) (cmds : List Pos) : SChar × List Tr :=
  execFItems s (fallbackItems s.x cmds)

/-! ## Scene lifecycle manager (src/src/scenes/SceneManager.js)

Scenes are identified by the object identity of the Scene instance.  The
asynchronous fade callbacks of Scene.fadeIn/fadeOut (src Scene class) are
collapsed into a sequential event trace, which is sound in the
single-threaded callback model: each fade invokes its onComplete exactly
once, after its span. -/

/-- Observable lifecycle events a scene change emits, in order. -/
inductive SMEvent where
  | deactivateEv (s : ℕ)
  | activateEv (s : ℕ)
  | fadeOutEv (s : ℕ) (duration : ℚ)
  | fadeInEv (s : ℕ) (duration : ℚ)
  | clearTransitioningEv
deriving DecidableEq, Repr

/-- The SceneManager state: the name-to-scene map (insertion ordered, unique
names), the current scene and its name, and the transition guard flag. -/
structure SceneManager where
  scenes : List (String × ℕ)
  currentScene : Option ℕ
  currentSceneName : Option String
  isTransitioning : Bool
deriving DecidableEq, Repr

/-- Lookup in the scene map (`this.scenes.get(name)`). -/
def SceneManager.getScene (s : SceneManager) (name : String) : Option ℕ :=
  (s.scenes.find? (fun kv => kv.1 == name)).map Prod.snd

/-- The transition kind carried by a transition spec object. -/
inductive TransitionKind where
  | fade
  | slide
  | unknownKind
deriving DecidableEq, Repr

/-- A transition spec object with its destructured defaults applied
(`type = 'fade'`, `duration = 0.5`). -/
structure TransitionSpec where
  kind : TransitionKind
  duration : ℚ
deriving DecidableEq, Repr

/-- SceneManager._changeSceneImmediate: deactivate the current scene if any,
install and activate the new one, clear the transitioning flag. -/
def SceneManager.changeSceneImmediate (s : SceneManager) (newScene : ℕ) (name : String) :
    SceneManager × List SMEvent :=
  let evs := (match s.currentScene with
    | some old => [SMEvent.deactivateEv old]
    | none => []) ++ [SMEvent.activateEv newScene, SMEvent.clearTransitioningEv]
  ({ s with currentScene := some newScene, currentSceneName := some name,
            isTransitioning := false }, evs)

/-- SceneManager._fadeTransition: with a current scene, fade it out over half
the duration, deactivate it, install and activate the new scene, fade that
in over the other half, and only in the fade-in completion callback clear
the transitioning flag; with no current scene, fade the new scene in over
the full duration. -/
def SceneManager.fadeTransition (s : SceneManager) (newScene : ℕ) (name : String)
    (duration : ℚ) : SceneManager × List SMEvent :=
  match s.currentScene with
  | some old =>
    ({ s with currentScene := some newScene, currentSceneName := some name,
              isTransitioning := false },
     [SMEvent.fadeOutEv old (duration / 2), SMEvent.deactivateEv old,
      SMEvent.activateEv newScene, SMEvent.fadeInEv newScene (duration / 2),
      SMEvent.clearTransitioningEv])
  | none =>
    ({ s with currentScene := some newScene, currentSceneName := some name,
              isTransitioning := false },
     [SMEvent.activateEv newScene, SMEvent.fadeInEv newScene duration,
      SMEvent.clearTransitioningEv])

/-- SceneManager._slideTransition: currently an immediate swap. -/
def SceneManager.slideTransition (s : SceneManager) (newScene : ℕ) (name : String) :
    SceneManager × List SMEvent :=
  SceneManager.changeSceneImmediate s newScene name

/-- SceneManager._performTransition: dispatch on the transition type,
degrading unknown types to an immediate swap with a logged warning. -/
def SceneManager.performTransition (s : SceneManager) (newScene : ℕ) (name : String)
    (t : TransitionSpec) : SceneManager × List SMEvent :=
  match t.kind with
  | TransitionKind.fade => SceneManager.fadeTransition s newScene name t.duration
  | TransitionKind.slide => SceneManager.slideTransition s newScene name
  | TransitionKind.unknownKind => SceneManager.changeSceneImmediate s newScene name

/-- SceneManager.changeScene: fails fast while a transition is in progress or
when the name is unknown; no-ops returning true when the target scene is
already current; otherwise raises the transitioning flag and performs the
requested (or immediate) transition. -/
def SceneManager.changeScene (s : SceneManager) (name : String)
    (transition : Option TransitionSpec) : Bool × SceneManager × List SMEvent :=
  if s.isTransitioning then (false, s, [])
  else
    match SceneManager.getScene s name with
    | none => (false, s, [])
    | some newScene =>
      if s.currentScene = some newScene then (true, s, [])
      else
        let s1 := { s with isTransitioning := true }
        match transition with
        | some t =>
          let r := SceneManager.performTransition s1 newScene name t
          (true, r.1, r.2)
        | none =>
          let r := SceneManager.changeSceneImmediate s1 newScene name
          (true, r.1, r.2)

/-! ## Character registry (src/src/game/CharacterManager.js)

Characters are identified by the object identity `cid`; the manager keeps an
insertion-ordered list, an id map with unique keys, and the container's
child list of sprites.  Destroyed bubbles are logged so resource release is
observable. -/

/-- The manager's record of one Character object. -/
structure MChar where
  cid : ℕ
  sprite : ℕ
  hasBubble : Bool
deriving DecidableEq, Repr

/-- The CharacterManager state.  `nextCid` supplies fresh object identities
for newly constructed characters and their sprites. -/
structure CharacterManager where
  container : List ℕ
  characters : List MChar
  charactersById : List (String × MChar)
  destroyedBubbles : List ℕ
  nextCid : ℕ
deriving DecidableEq, Repr

/-- CharacterManager.getCharacter: lookup in the id map. -/
def CharacterManager.getCharacter (s : CharacterManager) (id : String) : Option MChar :=
  (s.charactersById.find? (fun kv => kv.1 == id)).map Prod.snd

/-- CharacterManager.removeCharacter: false when the id is unknown;
otherwise detach the sprite from the container, destroy the bubble if one
exists, splice the character out of the list and delete the map entry. -/
def CharacterManager.removeCharacter (s : CharacterManager) (id : String) :
    Bool × CharacterManager :=
  match CharacterManager.getCharacter s id with
  | none => (false, s)
  | some c =>
    (true,
     { s with
        container := s.container.filter (fun sp => !(sp == c.sprite))
        characters := s.characters.eraseP (fun ch => ch.cid == c.cid)
        charactersById := s.charactersById.filter (fun kv => !(kv.1 == id))
        destroyedBubbles :=
          if c.hasBubble then s.destroyedBubbles ++ [c.cid] else s.destroyedBubbles })

/-- CharacterManager.addCharacter: a duplicate id first removes the existing
character; then a fresh Character is constructed, its sprite attached to
the container, and it is appended to the list and the id map. -/
def CharacterManager.addCharacter (s : CharacterManager) (id : String) :
    MChar × CharacterManager :=
  let s1 := if (CharacterManager.getCharacter s id).isSome then
      (CharacterManager.removeCharacter s id).2
    else s
  let c : MChar := { cid := s1.nextCid, sprite := s1.nextCid, hasBubble := false }
  (c,
   { s1 with
      container := s1.container ++ [c.sprite]
      characters := s1.characters ++ [c]
      charactersById := s1.charactersById ++ [(id, c)]
      nextCid := s1.nextCid + 1 })

/-! ## Speech bubble (BubbleText, src/unnamed/part_000)

The host timer primitive (`setTimeout`/`clearTimeout`) is modelled by a
pending-timer list with fresh numeric ids and a virtual clock; the exit
tween of `hide` is collapsed to its completion.  Auto-hide firings are
logged with the time and the text the bubble was showing. -/

/-- One pending auto-hide timer. -/
structure Timer where
  tid : ℕ
  fireAt : ℚ
deriving DecidableEq, Repr

/-- Record of one auto-hide firing: when it fired and what text the bubble
was showing at that moment. -/
structure HideEvent where
  time : ℚ
  text : String
deriving DecidableEq, Repr

/-- The BubbleText state proper. -/
structure BubbleText where
  isVisible : Bool
  text : Option String
  hideTimeout : Option ℕ
deriving DecidableEq, Repr

/-- The bubble together with its host world: virtual clock, pending timers,
fresh timer ids and the auto-hide log. -/
structure BubbleWorld where
  now : ℚ
  bub : BubbleText
  timers : List Timer
  nextTid : ℕ
  hides : List HideEvent
deriving DecidableEq, Repr

/-- Cancelling the bubble's pending auto-hide timer, if any
(`clearTimeout(this.hideTimeout)`). -/
def cancelHideTimer (w : BubbleWorld) : BubbleWorld :=
  match w.bub.hideTimeout with
  | some t =>
    { w with timers := w.timers.filter (fun tm => !(tm.tid == t)),
             bub := { w.bub with hideTimeout := none } }
  | none => w

/-- BubbleText.show: cancel any pending auto-hide timer, update the text and
visuals, become visible (playing the entrance animation when transitioning
from hidden), and schedule a new auto-hide after `duration` seconds when
`duration > 0`. -/
def BubbleText.show (w : BubbleWorld) (message : String) (duration : ℚ) : BubbleWorld :=
  let w1 := cancelHideTimer w
  let w2 := { w1 with bub := { w1.bub with text := some message, isVisible := true } }
  if 0 < duration then
    { w2 with
       timers := w2.timers ++ [{ tid := w2.nextTid, fireAt := w2.now + duration }]
       bub := { w2.bub with hideTimeout := some w2.nextTid }
       nextTid := w2.nextTid + 1 }
  else w2

/-- BubbleText.hide: no-op when already hidden; otherwise cancel any pending
auto-hide timer and play the exit animation, whose completion marks the
bubble hidden (the exit tween is collapsed to its completion here). -/
def BubbleText.hide (w : BubbleWorld) : BubbleWorld :=
  if w.bub.isVisible = false then w
  else
    let w1 := cancelHideTimer w
    { w1 with bub := { w1.bub with isVisible := false } }

/-- An auto-hide timer firing: the timer leaves the pending set, the firing
is logged with the text then showing, and `hide()` runs. -/
def fireTimer (w : BubbleWorld) (tm : Timer) : BubbleWorld :=
  let w1 := { w with
    now := tm.fireAt
    timers := w.timers.filter (fun x => !(x.tid == tm.tid))
    hides := w.hides ++ [{ time := tm.fireAt, text := (w.bub.text).getD "" }] }
  BubbleText.hide w1

/-- The earliest pending timer due at or before `t` (ties broken by
scheduling order, as in the host event loop). -/
def earliestDue (timers : List Timer) (t : ℚ) : Option Timer :=
  (timers.filter (fun tm => decide (tm.fireAt ≤ t))).foldl
    (fun acc tm =>
      match acc with
      | none => some tm
      | some b => if tm.fireAt < b.fireAt then some tm else acc)
    none

/-- Advancing the virtual clock to `t`, firing every due timer in time
order; the fuel bounds the number of firings (each firing removes a
timer). -/
def advanceWithFuel : ℕ → BubbleWorld → ℚ → BubbleWorld
  | 0, w, t => { w with now := t }
  | Nat.succ fuel, w, t =>
    match earliestDue w.timers t with
    | none => { w with now := t }
    | some tm => advanceWithFuel fuel (fireTimer w tm) t

/-- Advancing the virtual clock to `t`. -/
def advanceTo (w : BubbleWorld) (t : ℚ) : BubbleWorld :=
  advanceWithFuel (w.timers.length + 1) w t

/-- The world of a freshly constructed BubbleText: hidden, no text, no
pending timer. -/
def BubbleWorld.init : BubbleWorld :=
  { now := 0, bub := { isVisible := false, text := none, hideTimeout := none },
    timers := [], nextTid := 0, hides := [] }

/-! ## Concrete example states used by witnesses and counterexamples -/

/-- A grounded character with the standard clip set. -/
def exChar : Character :=
  { x := 0, y := 100, groundY := 100, direction := Dir.right,
    currentAnimation := "idle", isMoving := false, isGrounded := true,
    hasMoveTween := false, jumpHeight := 80,
    clips := some ["idle", "walk", "run", "attack", "hurt", "die", "jump"],
    crashed := false }

/-- The same character mid-air. -/
def exAirborne : Character :=
  { exChar with isGrounded := false }

/-- A movement target whose groundY and y fields disagree. -/
def cexTarget : Target :=
  { x := 10, y := some 1, groundY := some 2 }

/-- The observable character the two Cutscene.move paths are compared on. -/
def c4Char : SChar :=
  { x := 0, y := 100, direction := Dir.left, anim := "idle",
    clips := ["idle", "walk", "run", "jump"] }

/-- Two chained moves: out to x = 100 and back to x = 0. -/
def c4Moves : List Pos :=
  [{ x := 100, y := 100 }, { x := 0, y := 100 }]

/-- A scene manager holding scenes a and b with a current. -/
def smEx : SceneManager :=
  { scenes := [("a", 1), ("b", 2)], currentScene := some 1,
    currentSceneName := some "a", isTransitioning := false }

/-- The same manager mid-transition. -/
def smExTrans : SceneManager :=
  { smEx with isTransitioning := true }

/-- A registry holding one character (with a live bubble) under id bob. -/
def cmEx : CharacterManager :=
  { container := [0], characters := [{ cid := 0, sprite := 0, hasBubble := true }],
    charactersById := [("bob", { cid := 0, sprite := 0, hasBubble := true })],
    destroyedBubbles := [], nextCid := 1 }

/-- A bubble world with a visible bubble and one pending auto-hide timer. -/
def bwEx : BubbleWorld :=
  { now := 0, bub := { isVisible := true, text := some "hi", hideTimeout := some 0 },
    timers := [{ tid := 0, fireAt := 1 }], nextTid := 1, hides := [] }

/-- A cutscene consisting of a single two-second wait. -/
def cutEx : Cutscene :=
  Cutscene.wait Cutscene.init 2

/-- A playing two-second timeline with a completion callback registered. -/
def pbEx : Playback :=
  { endTime := 2, cursor := 0, paused := false, hasOnComplete := true,
    completeFired := false }

/-! ## Helper lemmas -/

/-- playAnimation touches only `currentAnimation`. -/
theorem Character.playAnimation_preserves (s : Character) (n : String) (f : Bool) :
    (Character.playAnimation s n f).x = s.x ∧
    (Character.playAnimation s n f).y = s.y ∧
    (Character.playAnimation s n f).groundY = s.groundY ∧
    (Character.playAnimation s n f).direction = s.direction ∧
    (Character.playAnimation s n f).isMoving = s.isMoving ∧
    (Character.playAnimation s n f).isGrounded = s.isGrounded ∧
    (Character.playAnimation s n f).hasMoveTween = s.hasMoveTween ∧
    (Character.playAnimation s n f).jumpHeight = s.jumpHeight ∧
    (Character.playAnimation s n f).clips = s.clips := by
  unfold Character.playAnimation
  split
  · exact ⟨rfl, rfl, rfl, rfl, rfl, rfl, rfl, rfl, rfl⟩
  · cases hc : s.clips with
    | none => simp [hc]
    | some cs =>
      simp only [hc]
      split
      · split <;> simp [hc]
      · simp [hc]

/-- playAnimation does switch to a clip the spritesheet provides. -/
theorem Character.playAnimation_of_available (s : Character) (n : String) (cs : List String)
    (hc : s.clips = some cs) (hm : n ∈ cs) :
    (Character.playAnimation s n false).currentAnimation = n := by
  unfold Character.playAnimation
  by_cases h : s.currentAnimation = n
  · simp [h]
  · simp only [h, hc, hm]
    simp [h, hm]
    split <;> rfl

/-- setDirection touches only `direction`. -/
theorem Character.setDirection_preserves (s : Character) (d : Dir) :
    (Character.setDirection s d).x = s.x ∧
    (Character.setDirection s d).y = s.y ∧
    (Character.setDirection s d).groundY = s.groundY ∧
    (Character.setDirection s d).currentAnimation = s.currentAnimation ∧
    (Character.setDirection s d).isMoving = s.isMoving ∧
    (Character.setDirection s d).isGrounded = s.isGrounded ∧
    (Character.setDirection s d).hasMoveTween = s.hasMoveTween ∧
    (Character.setDirection s d).jumpHeight = s.jumpHeight ∧
    (Character.setDirection s d).clips = s.clips := by
  unfold Character.setDirection
  split
  · exact ⟨rfl, rfl, rfl, rfl, rfl, rfl, rfl, rfl, rfl⟩
  · exact ⟨rfl, rfl, rfl, rfl, rfl, rfl, rfl, rfl, rfl⟩

/-- setDirection also keeps the crash flag. -/
theorem Character.setDirection_crashed (s : Character) (d : Dir) :
    (Character.setDirection s d).crashed = s.crashed := by
  unfold Character.setDirection
  split <;> rfl

/-- playAnimation with the already-current clip name leaves it in place. -/
theorem Character.playAnimation_current_eq (s : Character) (n : String)
    (h : s.currentAnimation = n) :
    (Character.playAnimation s n false).currentAnimation = n := by
  unfold Character.playAnimation
  simp [h]

/-- On a character without an idle clip, a playAnimation call that does not
throw leaves an idle animation label at idle: every branch that would change
the label either needs an idle clip (an animated sprite) or throws. -/
theorem Character.playAnimation_keeps_idle (s : Character) (a : String)
    (hnid : ¬ Character.idleAvailable s) (hidle : s.currentAnimation = "idle")
    (hnc : (Character.playAnimation s a false).crashed = false) :
    (Character.playAnimation s a false).currentAnimation = "idle" := by
  unfold Character.playAnimation at hnc ⊢
  by_cases h : s.currentAnimation = a
  · have ha : a = "idle" := h.symm.trans hidle
    simp [h, hidle, ha]
  · cases hcl : s.clips with
    | none => simp [h, hcl, hidle]
    | some cs =>
      by_cases hmem : a ∈ cs
      · by_cases hidleCs : "idle" ∈ cs
        · exact absurd ⟨cs, hcl, hidleCs⟩ hnid
        · simp [h, hcl, hmem, hidleCs] at hnc
      · simp [h, hcl, hmem, hidle]

/-- The pre-state of moveTo keeps the animation label, the spritesheet and
the crash flag (it only kills the tween, turns the character and sets
isMoving). -/
theorem Character.moveToPre_fields (s : Character) (p : Target) :
    (Character.moveToPre s p).currentAnimation = s.currentAnimation
  ∧ (Character.moveToPre s p).clips = s.clips
  ∧ (Character.moveToPre s p).crashed = s.crashed := by
  unfold Character.moveToPre
  simp only
  split
  · exact ⟨(Character.setDirection_preserves _ _).2.2.2.1,
      (Character.setDirection_preserves _ _).2.2.2.2.2.2.2.2,
      Character.setDirection_crashed _ _⟩
  · exact ⟨rfl, rfl, rfl⟩

/-- The call-time half of moveTo keeps the spritesheet. -/
theorem Character.moveTo_clips (s : Character) (p : Target) (a : String) :
    (Character.moveTo s p a).clips = s.clips := by
  unfold Character.moveTo
  split <;>
    exact ((Character.playAnimation_preserves _ _ _).2.2.2.2.2.2.2.2).trans
      (Character.moveToPre_fields s p).2.1

/-- A moveTo call that did not throw is the pre-state with the clip switch
applied and the tween created (and that clip switch did not throw). -/
theorem Character.moveTo_of_no_crash (s : Character) (p : Target) (a : String)
    (hcall : (Character.moveTo s p a).crashed = false) :
    (Character.playAnimation (Character.moveToPre s p) a false).crashed = false
  ∧ Character.moveTo s p a
      = { Character.playAnimation (Character.moveToPre s p) a false with
            hasMoveTween := true } := by
  cases hc3 : (Character.playAnimation (Character.moveToPre s p) a false).crashed with
  | true =>
    unfold Character.moveTo at hcall
    simp [hc3] at hcall
  | false =>
    unfold Character.moveTo
    simp [hc3]

/-- The completion handler settles position, motion flag and ground level,
and keeps the spritesheet. -/
theorem Character.moveToOnComplete_props (s : Character) (tx ty : ℚ) :
    (Character.moveToOnComplete s tx ty).isMoving = false ∧
    (Character.moveToOnComplete s tx ty).x = tx ∧
    (Character.moveToOnComplete s tx ty).y = ty ∧
    (Character.moveToOnComplete s tx ty).groundY = ty ∧
    (Character.moveToOnComplete s tx ty).hasMoveTween = false ∧
    (Character.moveToOnComplete s tx ty).clips = s.clips := by
  unfold Character.moveToOnComplete
  simp only
  refine ⟨?_, ?_, ?_, ?_, trivial, ?_⟩
  · rw [(Character.playAnimation_preserves _ _ _).2.2.2.2.1]
  · rw [(Character.playAnimation_preserves _ _ _).1]
  · rw [(Character.playAnimation_preserves _ _ _).2.1]
  · rw [(Character.playAnimation_preserves _ _ _).2.2.1]
  · rw [(Character.playAnimation_preserves _ _ _).2.2.2.2.2.2.2.2]

/-- The completion handler reverts to idle when the spritesheet provides an
idle clip. -/
theorem Character.moveToOnComplete_idle (s : Character) (tx ty : ℚ) (cs : List String)
    (hc : s.clips = some cs) (hm : "idle" ∈ cs) :
    (Character.moveToOnComplete s tx ty).currentAnimation = "idle" := by
  unfold Character.moveToOnComplete
  simp only
  exact Character.playAnimation_of_available _ _ cs hc hm

/-- The completion handler leaves an already-idle animation at idle (its
playAnimation call early-returns). -/
theorem Character.moveToOnComplete_idle_of_idle (s : Character) (tx ty : ℚ)
    (h : s.currentAnimation = "idle") :
    (Character.moveToOnComplete s tx ty).currentAnimation = "idle" := by
  unfold Character.moveToOnComplete
  simp only
  exact Character.playAnimation_current_eq _ _ h

/-! ## Claim C8 -/

/-- C8: for every Character with isGrounded == false, jumpTo returns null,
creates no new tween, and leaves all Character state unchanged. -/
theorem C8_jumpTo_airborne_noop (s : Character) (p : Target) (height : Option ℚ)
    (h : s.isGrounded = false) :
    Character.jumpTo s p height = (none, s) := by
  simp [Character.jumpTo, h]

/-- Witness for C8 at a concrete airborne character. -/
theorem C8_jumpTo_airborne_noop_witness :
    Character.jumpTo exAirborne { x := 50, y := some 10, groundY := none } (some 40)
      = (none, exAirborne) :=
  C8_jumpTo_airborne_noop exAirborne { x := 50, y := some 10, groundY := none } (some 40) rfl

/-! ## Claim C10 -/

/-- C10: for every moveTo and jumpTo call, the vertical target resolves as
position.groundY if truthy, else position.y if truthy, else the current
groundY; a target whose groundY and y are both 0 or absent moves the actor
to its current groundY. -/
theorem C10_vertical_target_resolution (s : Character) (p : Target)
    (animationType : String) (height : Option ℚ) (g : ℚ)
    (hg : s.isGrounded = true) :
    (Character.moveToRun s p animationType).y
      = ((truthy p.groundY).orElse (fun _ => truthy p.y)).getD s.groundY
  ∧ (Character.moveToRun s p animationType).groundY
      = ((truthy p.groundY).orElse (fun _ => truthy p.y)).getD s.groundY
  ∧ ((Character.jumpTo s p height).1.map JumpHandle.targetY)
      = some (((truthy p.groundY).orElse (fun _ => truthy p.y)).getD s.groundY)
  ∧ ((p.groundY = none ∨ p.groundY = some 0) → (p.y = none ∨ p.y = some 0) →
      resolveTargetY p g = g) := by
  refine ⟨?_, ?_, ?_, ?_⟩
  · unfold Character.moveToRun Character.moveToOnComplete
    simp only
    rw [(Character.playAnimation_preserves _ _ _).2.1]
    rfl
  · unfold Character.moveToRun Character.moveToOnComplete
    simp only
    rw [(Character.playAnimation_preserves _ _ _).2.2.1]
    rfl
  · unfold Character.jumpTo
    simp [hg, resolveTargetY]
  · intro h1 h2
    unfold resolveTargetY truthy
    rcases h1 with h1 | h1 <;> rcases h2 with h2 | h2 <;> simp [h1, h2]

/-- Witness for C10 at a concrete grounded character and a target whose
groundY and y are both absent or zero. -/
theorem C10_vertical_target_resolution_witness :
    ((Character.moveToRun exChar { x := 50, y := none, groundY := some 0 } "walk").y
      = ((truthy (some 0)).orElse (fun _ => truthy none)).getD 100
  ∧ (Character.moveToRun exChar { x := 50, y := none, groundY := some 0 } "walk").groundY
      = ((truthy (some 0)).orElse (fun _ => truthy none)).getD 100
  ∧ ((Character.jumpTo exChar { x := 50, y := none, groundY := some 0 } none).1.map
        JumpHandle.targetY)
      = some (((truthy (some 0)).orElse (fun _ => truthy none)).getD 100)
  ∧ (((some 0 : Option ℚ) = none ∨ (some 0 : Option ℚ) = some 0) →
      ((none : Option ℚ) = none ∨ (none : Option ℚ) = some 0) →
      resolveTargetY { x := 50, y := none, groundY := some 0 } 7 = 7)) :=
  C10_vertical_target_resolution exChar { x := 50, y := none, groundY := some 0 }
    "walk" none 7 rfl

/-! ## Claim C2 -/

/-- C2 counterexample: on a character with a full spritesheet (so every
path is crash-free) and target {x:=10, y:=1, groundY:=2}, the completed
move leaves the actor at y = 2, not at the target's y = 1 — moveTo resolves
the vertical target as position.groundY || position.y || this.groundY, so
the final position does not equal p. -/
theorem C2_position_counterexample :
    (Character.moveToRun exChar cexTarget "walk").isMoving = false
  ∧ (Character.moveToRun exChar cexTarget "walk").x = 10
  ∧ (Character.moveToRun exChar cexTarget "walk").y = 2
  ∧ (Character.moveToRun exChar cexTarget "walk").currentAnimation = "idle"
  ∧ ¬((Character.moveToRun exChar cexTarget "walk").y = 1) := by
  norm_num [Character.moveToRun, Character.moveTo, Character.moveToPre,
    Character.moveToOnComplete, Character.playAnimation, Character.setDirection,
    resolveTargetY, truthy, jsAbs, exChar, cexTarget,
    show ("idle" : String) ≠ "walk" from by decide,
    show ("walk" : String) ≠ "idle" from by decide,
    show ("walk" : String) ∈ ["idle", "walk", "run", "attack", "hurt", "die", "jump"]
      from by decide,
    show ("idle" : String) ∈ ["idle", "walk", "run", "attack", "hurt", "die", "jump"]
      from by decide]

/-- C2 amended: for every Character in a reachable animation state (the
spritesheet provides an idle clip, or currentAnimation is still idle), when
a moveTo(p, d) call does not throw in its clip switch — on a simple-graphic
character a present clip's sprite.play() throws, aborting the move before
any tween — and its movement tween completes: isMoving == false, the
position equals (p.x, y*) where y* is p.groundY if truthy, else p.y if
truthy, else the actor's prior groundY (so the position equals p exactly
when that resolution yields p.y), groundY has been updated to y*, and
currentAnimation == idle. -/
theorem C2_moveTo_completion_amended (s : Character) (p : Target) (animationType : String)
    (hreach : Character.idleAvailable s ∨ s.currentAnimation = "idle")
    (hcall : (Character.moveTo s p animationType).crashed = false) :
    (Character.moveToRun s p animationType).isMoving = false
  ∧ (Character.moveToRun s p animationType).x = p.x
  ∧ (Character.moveToRun s p animationType).y = resolveTargetY p s.groundY
  ∧ (Character.moveToRun s p animationType).groundY = resolveTargetY p s.groundY
  ∧ (Character.moveToRun s p animationType).hasMoveTween = false
  ∧ (Character.moveToRun s p animationType).currentAnimation = "idle" := by
  obtain ⟨h1, h2, h3, h4, h5, _h6⟩ :=
    Character.moveToOnComplete_props (Character.moveTo s p animationType) p.x
      (resolveTargetY p s.groundY)
  refine ⟨h1, h2, h3, h4, h5, ?_⟩
  by_cases hia : Character.idleAvailable s
  · obtain ⟨cs, hcs, hm⟩ := hia
    exact Character.moveToOnComplete_idle _ _ _ cs
      (by rw [Character.moveTo_clips, hcs]) hm
  · have hidle : s.currentAnimation = "idle" := by
      rcases hreach with hia2 | hidle
      · exact absurd hia2 hia
      · exact hidle
    apply Character.moveToOnComplete_idle_of_idle
    obtain ⟨hnc, heq⟩ := Character.moveTo_of_no_crash s p animationType hcall
    rw [heq]
    show (Character.playAnimation (Character.moveToPre s p)
        animationType false).currentAnimation = "idle"
    apply Character.playAnimation_keeps_idle
    · intro hiaPre
      obtain ⟨cs, hcs, hm⟩ := hiaPre
      exact hia ⟨cs, ((Character.moveToPre_fields s p).2.1).symm.trans hcs, hm⟩
    · exact ((Character.moveToPre_fields s p).1).trans hidle
    · exact hnc

/-- Witness for the amended C2 at a concrete character with a full
spritesheet and a target whose groundY and y disagree. -/
theorem C2_moveTo_completion_amended_witness :
    ((Character.moveToRun exChar cexTarget "walk").isMoving = false
  ∧ (Character.moveToRun exChar cexTarget "walk").x = cexTarget.x
  ∧ (Character.moveToRun exChar cexTarget "walk").y = resolveTargetY cexTarget 100
  ∧ (Character.moveToRun exChar cexTarget "walk").groundY = resolveTargetY cexTarget 100
  ∧ (Character.moveToRun exChar cexTarget "walk").hasMoveTween = false
  ∧ (Character.moveToRun exChar cexTarget "walk").currentAnimation = "idle") :=
  C2_moveTo_completion_amended exChar cexTarget "walk"
    (Or.inl ⟨["idle", "walk", "run", "attack", "hurt", "die", "jump"], rfl, by decide⟩)
    (by norm_num [Character.moveTo, Character.moveToPre, Character.playAnimation,
      Character.setDirection, jsAbs, exChar, cexTarget,
      show ("idle" : String) ≠ "walk" from by decide,
      show ("walk" : String) ∈ ["idle", "walk", "run", "attack", "hurt", "die", "jump"]
        from by decide])

/-! ## Claim C4 -/

/-- C4: the fallback path of Cutscene.move does not reproduce the enhanced
path's observable transitions.  On a character at x = 0 facing left, moving
out to x = 100 and back to x = 0: the enhanced path fires its two moveTo
callbacks back to back (both are zero-duration timeline children), killing
the first tween, so it emits one direction change and one walk/idle cycle;
the fallback path emits a walk/idle cycle per leg and decides direction
from the build-time position, so the traces differ — the code contradicts
the spec's requirement that both paths produce identical transitions. -/
theorem C4_fallback_enhanced_traces_diverge :
    (enhancedRun c4Char c4Moves).2
      = [Tr.dirChange Dir.right, Tr.animChange "walk", Tr.animChange "idle"]
  ∧ (fallbackRun c4Char c4Moves).2
      = [Tr.dirChange Dir.right, Tr.animChange "walk", Tr.animChange "idle",
         Tr.animChange "walk", Tr.animChange "idle"]
  ∧ ¬((fallbackRun c4Char c4Moves).2 = (enhancedRun c4Char c4Moves).2) := by
  norm_num [enhancedRun, fallbackRun, fallbackItems, execFItems,
    SChar.moveCall, SChar.moveComplete, SChar.setDir, SChar.playAnim, jsAbs,
    c4Char, c4Moves,
    show ("idle" : String) ≠ "walk" from by decide,
    show ("walk" : String) ≠ "idle" from by decide,
    show ("walk" : String) ∈ ["idle", "walk", "run", "jump"] from by decide,
    show ("idle" : String) ∈ ["idle", "walk", "run", "jump"] from by decide,
    show Dir.right ≠ Dir.left from by decide,
    show Dir.left ≠ Dir.right from by decide]
  decide

/-! ## Claim C5 -/

/-- C5 counterexample: after wait(1), call(fn, 5) is scheduled at time 1
(the end of the timeline), not at the explicit absolute time 5, because the
source drops the atTime argument; and animate(actor, clip, 0) with the
explicit absolute time 0 is scheduled at time 1, not 0, because the falsy
time 0 is replaced by the "+=0" default. -/
theorem C5_call_drops_atTime_counterexample :
    ((Cutscene.call (Cutscene.wait Cutscene.init 1) 0 (some (Anchor.abs 5))).entries.map
        Entry.start = [0, 1]
  ∧ ¬((Cutscene.call (Cutscene.wait Cutscene.init 1) 0 (some (Anchor.abs 5))).entries.map
        Entry.start = [0, 5]))
  ∧ ((Cutscene.animate (Cutscene.wait Cutscene.init 1) 7 "walk"
        (some (Anchor.abs 0))).entries.map Entry.start = [0, 1]
  ∧ ¬((Cutscene.animate (Cutscene.wait Cutscene.init 1) 7 "walk"
        (some (Anchor.abs 0))).entries.map Entry.start = [0, 0])) := by
  norm_num [Cutscene.call, Cutscene.animate, Cutscene.wait, Cutscene.init,
    Cutscene.addEntry, resolveAnchor, anchorOrDefault]

/-- C5 amended: animate, faceDirection, lookAt, speak, attack, hurt and
changeBackground each schedule a zero-duration action at the anchor
resolved from atTime, defaulting to "+=0" (immediately after the previously
scheduled action) when atTime is omitted — or falsy, so an explicit
absolute time 0 is also replaced by the default; call however ignores its
atTime argument entirely and always schedules the callback at the end of
the timeline. -/
theorem C5_zero_duration_scheduling_amended (c : Cutscene) (charId targetId fnId bgId : ℕ)
    (d : Dir) (clip text : String) (dur force : ℚ) (atTime : Option Anchor) :
    (Cutscene.animate c charId clip atTime).entries
      = c.entries ++ [{ start := resolveAnchor c.endTime (anchorOrDefault atTime),
                        dur := 0, action := CAction.animateClip charId clip }]
  ∧ (Cutscene.faceDirection c charId d atTime).entries
      = c.entries ++ [{ start := resolveAnchor c.endTime (anchorOrDefault atTime),
                        dur := 0, action := CAction.faceDir charId d }]
  ∧ (Cutscene.lookAt c charId targetId atTime).entries
      = c.entries ++ [{ start := resolveAnchor c.endTime (anchorOrDefault atTime),
                        dur := 0, action := CAction.lookTarget charId targetId }]
  ∧ (Cutscene.speak c charId text dur atTime).entries
      = c.entries ++ [{ start := resolveAnchor c.endTime (anchorOrDefault atTime),
                        dur := 0, action := CAction.speakText charId text dur }]
  ∧ (Cutscene.attack c charId (some targetId) atTime).entries
      = c.entries ++ [{ start := resolveAnchor c.endTime (anchorOrDefault atTime),
                        dur := 0, action := CAction.attackAct charId (some targetId) }]
  ∧ (Cutscene.hurt c charId force atTime).entries
      = c.entries ++ [{ start := resolveAnchor c.endTime (anchorOrDefault atTime),
                        dur := 0, action := CAction.hurtAct charId force }]
  ∧ (Cutscene.changeBackground c bgId atTime).entries
      = c.entries ++ [{ start := resolveAnchor c.endTime (anchorOrDefault atTime),
                        dur := 0, action := CAction.bgChange bgId }]
  ∧ (Cutscene.call c fnId atTime).entries
      = c.entries ++ [{ start := c.endTime, dur := 0, action := CAction.callFn fnId }]
  ∧ anchorOrDefault none = Anchor.relEnd 0
  ∧ resolveAnchor c.endTime (Anchor.relEnd 0) = c.endTime := by
  refine ⟨rfl, rfl, rfl, rfl, rfl, rfl, rfl, ?_, rfl, ?_⟩
  · simp [Cutscene.call, Cutscene.addEntry, resolveAnchor]
  · simp [resolveAnchor]

/-! ## Claim C3 -/

/-- C3: changeScene returns false and performs no scene change while a
transition is in progress or when the name is unknown; it returns true and
fires no deactivation or activation events when the target scene is
already the current scene. -/
theorem C3_changeScene_guards (s : SceneManager) (name : String)
    (transition : Option TransitionSpec) (sc : ℕ) :
    (s.isTransitioning = true →
      SceneManager.changeScene s name transition = (false, s, []))
  ∧ (SceneManager.getScene s name = none →
      SceneManager.changeScene s name transition = (false, s, []))
  ∧ (s.isTransitioning = false → SceneManager.getScene s name = some sc →
      s.currentScene = some sc →
      SceneManager.changeScene s name transition = (true, s, [])) := by
  refine ⟨?_, ?_, ?_⟩
  · intro h
    simp [SceneManager.changeScene, h]
  · intro h
    by_cases ht : s.isTransitioning
    · simp [SceneManager.changeScene, ht]
    · simp [SceneManager.changeScene, ht, h]
  · intro h1 h2 h3
    simp [SceneManager.changeScene, h1, h2, h3]

/-- Witness for C3 at a concrete two-scene manager: a call mid-transition,
a call with an unknown name, and a call naming the current scene. -/
theorem C3_changeScene_guards_witness :
    (SceneManager.changeScene smExTrans "b" none = (false, smExTrans, []))
  ∧ (SceneManager.changeScene smEx "zzz" none = (false, smEx, []))
  ∧ (SceneManager.changeScene smEx "a" none = (true, smEx, [])) :=
  ⟨(C3_changeScene_guards smExTrans "b" none 1).1 rfl,
   (C3_changeScene_guards smEx "zzz" none 1).2.1 (by decide),
   (C3_changeScene_guards smEx "a" none 1).2.2 rfl (by decide) rfl⟩

/-! ## Claim C6 -/

/-- C6: a fade transition of duration D with a current scene present
produces, in order: fade out of the current scene over D/2, its
deactivation, activation of the new scene, fade in over D/2, and only then
the clearing of the transitioning flag; the final state has the new scene
current and isTransitioning == false. -/
theorem C6_fade_transition_order (s : SceneManager) (name : String) (old sc : ℕ) (D : ℚ)
    (h1 : s.isTransitioning = false) (h2 : SceneManager.getScene s name = some sc)
    (h3 : s.currentScene = some old) (h4 : ¬(old = sc)) :
    SceneManager.changeScene s name (some { kind := TransitionKind.fade, duration := D })
      = (true,
         { s with currentScene := some sc, currentSceneName := some name,
                  isTransitioning := false },
         [SMEvent.fadeOutEv old (D / 2), SMEvent.deactivateEv old,
          SMEvent.activateEv sc, SMEvent.fadeInEv sc (D / 2),
          SMEvent.clearTransitioningEv]) := by
  have hne : ¬(s.currentScene = some sc) := by
    rw [h3]
    simp [h4]
  simp [SceneManager.changeScene, SceneManager.performTransition,
    SceneManager.fadeTransition, h1, h2, h3, hne, h4]

/-- Witness for C6: fading from scene a to scene b over half a second. -/
theorem C6_fade_transition_order_witness :
    SceneManager.changeScene smEx "b"
        (some { kind := TransitionKind.fade, duration := 1 / 2 })
      = (true,
         { smEx with currentScene := some 2, currentSceneName := some "b",
                     isTransitioning := false },
         [SMEvent.fadeOutEv 1 (1 / 2 / 2), SMEvent.deactivateEv 1,
          SMEvent.activateEv 2, SMEvent.fadeInEv 2 (1 / 2 / 2),
          SMEvent.clearTransitioningEv]) :=
  C6_fade_transition_order smEx "b" 1 2 (1 / 2) rfl (by decide) rfl (by decide)

/-! ## Claim C1 -/

/-- Once the one-shot flag is set, no step fires again and the flag stays. -/
theorem Playback.step_fired (p : Playback) (op : TOp) (h : p.completeFired = true) :
    (Playback.step p op).1.completeFired = true ∧ (Playback.step p op).2 = false := by
  cases op with
  | play => simp [Playback.step, h]
  | pause => simp [Playback.step, h]
  | seek t => simp [Playback.step, h]
  | tick dt =>
    by_cases hp : p.paused <;> simp [Playback.step, h, hp]

/-- No completion fires along any run beginning with the flag set. -/
theorem Playback.run_zero_of_fired (p : Playback) (ops : List TOp)
    (h : p.completeFired = true) : (Playback.run p ops).2 = 0 := by
  induction ops generalizing p with
  | nil => rfl
  | cons op ops ih =>
    obtain ⟨h1, h2⟩ := Playback.step_fired p op h
    simp [Playback.run, h2, ih _ h1]

/-- A step that fires leaves the one-shot flag set. -/
theorem Playback.step_fire_fired (p : Playback) (op : TOp)
    (h : (Playback.step p op).2 = true) :
    (Playback.step p op).1.completeFired = true := by
  cases op with
  | play => simp [Playback.step] at h
  | pause => simp [Playback.step] at h
  | seek t =>
    simp [Playback.step] at h ⊢
    simp [h]
  | tick dt =>
    by_cases hp : p.paused
    · simp [Playback.step, hp] at h
    · simp [Playback.step, hp] at h ⊢
      simp [h]

/-- At most one completion fires along any run from a fresh timeline. -/
theorem Playback.run_le_one (p : Playback) (ops : List TOp) :
    (Playback.run p ops).2 ≤ 1 := by
  induction ops generalizing p with
  | nil => simp [Playback.run]
  | cons op ops ih =>
    by_cases hf : (Playback.step p op).2
    · have h0 := Playback.run_zero_of_fired (Playback.step p op).1 ops
        (Playback.step_fire_fired p op hf)
      simp [Playback.run, hf, h0]
    · simp only [Playback.run, Bool.not_eq_true] at hf ⊢
      simp [hf]
      exact ih _

/-- A step fires only with the cursor at or past the end of the timeline. -/
theorem Playback.fire_at_end (p : Playback) (op : TOp)
    (h : (Playback.step p op).2 = true) :
    p.endTime ≤ (Playback.step p op).1.cursor := by
  cases op with
  | play => simp [Playback.step] at h
  | pause => simp [Playback.step] at h
  | seek t =>
    simp [Playback.step] at h ⊢
    exact h.1.2
  | tick dt =>
    by_cases hp : p.paused
    · simp [Playback.step, hp] at h
    · simp [Playback.step, hp] at h ⊢
      exact h.1.2

/-- A seek landing strictly before the end never fires completion. -/
theorem Playback.seek_before_end_no_fire (p : Playback) (t : ℚ) (h : t < p.endTime) :
    (Playback.step p (TOp.seek t)).2 = false := by
  simp [Playback.step, decide_eq_false (not_le.mpr h)]

/-- Play followed by a tick past the end fires exactly once, whatever comes
after. -/
theorem Playback.play_tick_fires_once (c : Cutscene) (d : ℚ) (rest : List TOp)
    (hd : c.endTime ≤ d) :
    (Playback.run (Cutscene.initPlayback c true)
        ([TOp.play, TOp.tick d] ++ rest)).2 = 1 := by
  have e1 : Playback.step (Cutscene.initPlayback c true) TOp.play
      = ({ endTime := c.endTime, cursor := 0, paused := false, hasOnComplete := true,
           completeFired := false }, false) := rfl
  have e2 : Playback.step
      ({ endTime := c.endTime, cursor := 0, paused := false, hasOnComplete := true,
         completeFired := false } : Playback) (TOp.tick d)
      = ({ endTime := c.endTime, cursor := c.endTime, paused := false,
           hasOnComplete := true, completeFired := true }, true) := by
    simp [Playback.step, min_eq_right hd]
  have e3 : (Playback.run
      ({ endTime := c.endTime, cursor := c.endTime, paused := false,
         hasOnComplete := true, completeFired := true } : Playback) rest).2 = 0 :=
    Playback.run_zero_of_fired _ rest rfl
  simp [Playback.run, e1, e2, e3]

/-- C1: for every Cutscene with a completion callback, the callback fires at
most once along any transport sequence; a step fires only with the cursor
at or beyond the end of the last scheduled action; a seek landing before
the end never fires it; and play followed by a tick reaching the end makes
it fire exactly once, whatever transport operations follow. -/
theorem C1_completion_fires_exactly_once (c : Cutscene) (ops rest : List TOp)
    (p : Playback) (op : TOp) (t d : ℚ) :
    (Playback.run (Cutscene.initPlayback c true) ops).2 ≤ 1
  ∧ ((Playback.step p op).2 = true → p.endTime ≤ (Playback.step p op).1.cursor)
  ∧ (t < p.endTime → (Playback.step p (TOp.seek t)).2 = false)
  ∧ (c.endTime ≤ d →
      (Playback.run (Cutscene.initPlayback c true) ([TOp.play, TOp.tick d] ++ rest)).2 = 1) :=
  ⟨Playback.run_le_one _ ops, Playback.fire_at_end p op,
   Playback.seek_before_end_no_fire p t, Playback.play_tick_fires_once c d rest⟩

/-- Witness for C1: a two-second cutscene played and ticked past its end,
then sought backwards and ticked again, fires exactly once; and a seek to
t = 1 on a playing two-second timeline fires nothing. -/
theorem C1_completion_fires_exactly_once_witness :
    ((Playback.step pbEx (TOp.seek 1)).2 = false)
  ∧ ((Playback.run (Cutscene.initPlayback cutEx true)
        ([TOp.play, TOp.tick 3] ++ [TOp.seek 1, TOp.tick 5])).2 = 1) :=
  ⟨(C1_completion_fires_exactly_once cutEx [] [] pbEx TOp.play 1 3).2.2.1
      (by norm_num [pbEx]),
   (C1_completion_fires_exactly_once cutEx [] [TOp.seek 1, TOp.tick 5] pbEx TOp.play 1 3).2.2.2
      (by norm_num [cutEx, Cutscene.wait, Cutscene.init, Cutscene.addEntry, resolveAnchor])⟩

/-! ## Claim C9 -/

/-- No timer with the cancelled id survives the cancelling filter. -/
theorem mem_tid_filter_ne (timers : List Timer) (t : ℕ) :
    ¬ t ∈ (timers.filter (fun tm => !(tm.tid == t))).map Timer.tid := by
  intro h
  simp [List.mem_map, List.mem_filter] at h
  obtain ⟨tm, ⟨_, hpred⟩, htid⟩ := h
  exact hpred htid

/-- C9: every BubbleText.show cancels the pending auto-hide timer before
scheduling a new one (scheduled only when duration > 0); consequently after
show(hi, pos, 1) followed 0.1 s later by show(bye, pos, 1), exactly one
auto-hide fires, at 1.1 s after the first call, hiding the bubble that is
then showing bye. -/
theorem C9_show_cancels_pending_autohide (w : BubbleWorld) (msg : String) (dur : ℚ) (t : ℕ)
    (h1 : w.bub.hideTimeout = some t) (h2 : t < w.nextTid) :
    (¬ t ∈ (BubbleText.show w msg dur).timers.map Timer.tid)
  ∧ ((BubbleText.show w msg dur).bub.hideTimeout
      = if 0 < dur then some w.nextTid else none)
  ∧ ((advanceTo (BubbleText.show
        { BubbleText.show BubbleWorld.init "hi" 1 with now := 1 / 10 } "bye" 1) 2).hides
      = [{ time := 11 / 10, text := "bye" }]) := by
  refine ⟨?_, ?_, ?_⟩
  · intro hmem
    by_cases hd : 0 < dur
    · simp only [BubbleText.show, cancelHideTimer, h1, hd, if_pos, List.map_append,
        List.mem_append, List.map_cons, List.map_nil, List.mem_singleton] at hmem
      rcases hmem with hmem | hmem
      · exact mem_tid_filter_ne w.timers t hmem
      · exact absurd hmem.symm (Nat.ne_of_gt h2)
    · simp only [BubbleText.show, cancelHideTimer, h1, hd, if_neg] at hmem
      exact mem_tid_filter_ne w.timers t hmem
  · by_cases hd : 0 < dur <;> simp [BubbleText.show, cancelHideTimer, h1, hd]
  · norm_num [advanceTo, advanceWithFuel, earliestDue, fireTimer, BubbleText.show,
      BubbleText.hide, cancelHideTimer, BubbleWorld.init]

/-- Witness for C9 at a concrete world holding a pending auto-hide timer. -/
theorem C9_show_cancels_pending_autohide_witness :
    (¬ 0 ∈ (BubbleText.show bwEx "bye" 1).timers.map Timer.tid)
  ∧ ((BubbleText.show bwEx "bye" 1).bub.hideTimeout
      = if (0 : ℚ) < 1 then some 1 else none)
  ∧ ((advanceTo (BubbleText.show
        { BubbleText.show BubbleWorld.init "hi" 1 with now := 1 / 10 } "bye" 1) 2).hides
      = [{ time := 11 / 10, text := "bye" }]) :=
  C9_show_cancels_pending_autohide bwEx "bye" 1 0 rfl (by decide)

/-! ## Claim C7 -/

/-- Erasing the unique match of a predicate leaves no match. -/
theorem countP_eraseP_eq_zero {α : Type} (p : α → Bool) (l : List α)
    (h : l.countP p = 1) : (l.eraseP p).countP p = 0 := by
  induction l with
  | nil => rfl
  | cons a l ih =>
    by_cases hp : p a
    · rw [List.eraseP_cons_of_pos hp]
      rw [List.countP_cons_of_pos _ _ hp] at h
      omega
    · rw [List.eraseP_cons_of_neg hp, List.countP_cons_of_neg _ _ hp]
      rw [List.countP_cons_of_neg _ _ hp] at h
      exact ih h

/-- Deleting the key found under unique keys shortens the map by one. -/
theorem filter_key_length (l : List (String × MChar)) (id : String)
    (hk : (l.map Prod.fst).Nodup)
    (hf : (l.find? (fun kv => kv.1 == id)).isSome) :
    (l.filter (fun kv => !(kv.1 == id))).length + 1 = l.length := by
  induction l with
  | nil => simp at hf
  | cons kv l ih =>
    by_cases hid : kv.1 = id
    · have hrest : l.filter (fun kv2 => !(kv2.1 == id)) = l := by
        rw [List.filter_eq_self]
        intro x hx
        have hxk : x.1 ∈ l.map Prod.fst := List.mem_map_of_mem Prod.fst hx
        have : ¬ x.1 = id := by
          intro he
          exact (List.nodup_cons.mp hk).1 (by rw [hid, ← he]; exact hxk)
        simp [this]
      have hkv : (!(kv.1 == id)) = false := by simp [hid]
      rw [List.filter_cons, hkv]
      simp [hrest]
    · have hkv : (!(kv.1 == id)) = true := by simp [hid]
      have hf2 : (l.find? (fun kv2 => kv2.1 == id)).isSome := by
        rw [List.find?_cons_of_neg] at hf
        · exact hf
        · simp [hid]
      have hlen := ih (List.nodup_cons.mp hk).2 hf2
      simp [List.filter_cons, hkv]
      omega

/-- C7: addCharacter with an already-registered id first removes the
existing character under that id: the registry size is unchanged, lookup at
the id returns the newly created character, no two live characters share an
id, the old character's bubble is destroyed, and its sprite has left the
container. -/
theorem C7_duplicate_add_replaces (s : CharacterManager) (id : String) (c : MChar)
    (hkeys : (s.charactersById.map Prod.fst).Nodup)
    (hc : CharacterManager.getCharacter s id = some c)
    (hcount : s.characters.countP (fun ch => ch.cid == c.cid) = 1)
    (hfresh : c.cid < s.nextCid) (hfreshsp : c.sprite < s.nextCid) :
    (CharacterManager.addCharacter s id).2.characters.length = s.characters.length
  ∧ CharacterManager.getCharacter (CharacterManager.addCharacter s id).2 id
      = some (CharacterManager.addCharacter s id).1
  ∧ (CharacterManager.addCharacter s id).2.charactersById.length
      = s.charactersById.length
  ∧ (¬ c.cid ∈ (CharacterManager.addCharacter s id).2.characters.map MChar.cid)
  ∧ (c.hasBubble = true →
      c.cid ∈ (CharacterManager.addCharacter s id).2.destroyedBubbles)
  ∧ (¬ c.sprite ∈ (CharacterManager.addCharacter s id).2.container)
  ∧ ((CharacterManager.addCharacter s id).2.charactersById.map Prod.fst).Nodup := by
  have hfind : (s.charactersById.find? (fun kv => kv.1 == id)).isSome := by
    unfold CharacterManager.getCharacter at hc
    obtain ⟨kv, hkv, _⟩ := Option.map_eq_some'.mp hc
    simp [hkv]
  have hrem : CharacterManager.removeCharacter s id
      = (true,
         { s with
            container := s.container.filter (fun sp => !(sp == c.sprite))
            characters := s.characters.eraseP (fun ch => ch.cid == c.cid)
            charactersById := s.charactersById.filter (fun kv => !(kv.1 == id))
            destroyedBubbles :=
              if c.hasBubble then s.destroyedBubbles ++ [c.cid]
              else s.destroyedBubbles }) := by
    unfold CharacterManager.removeCharacter
    rw [hc]
  have hadd : CharacterManager.addCharacter s id
      = ({ cid := s.nextCid, sprite := s.nextCid, hasBubble := false },
         { container := s.container.filter (fun sp => !(sp == c.sprite)) ++ [s.nextCid]
           characters := s.characters.eraseP (fun ch => ch.cid == c.cid)
             ++ [{ cid := s.nextCid, sprite := s.nextCid, hasBubble := false }]
           charactersById := s.charactersById.filter (fun kv => !(kv.1 == id))
             ++ [(id, { cid := s.nextCid, sprite := s.nextCid, hasBubble := false })]
           destroyedBubbles :=
             if c.hasBubble then s.destroyedBubbles ++ [c.cid] else s.destroyedBubbles
           nextCid := s.nextCid + 1 }) := by
    unfold CharacterManager.addCharacter
    rw [hc, hrem]
    rfl
  obtain ⟨a, ha, hpa⟩ := List.countP_pos_iff.mp (by omega : 0 < s.characters.countP
    (fun ch => ch.cid == c.cid))
  have herase := @List.length_eraseP_add_one _ (fun ch => ch.cid == c.cid) s.characters a ha hpa
  refine ⟨?_, ?_, ?_, ?_, ?_, ?_, ?_⟩
  · rw [hadd]
    simp only [List.length_append, List.length_cons, List.length_nil]
    omega
  · rw [hadd]
    unfold CharacterManager.getCharacter
    simp only [List.find?_append]
    have hnone : (s.charactersById.filter (fun kv => !(kv.1 == id))).find?
        (fun kv => kv.1 == id) = none := by
      rw [List.find?_eq_none]
      intro kv hkv
      have := (List.mem_filter.mp hkv).2
      simp at this
      simp [this]
    rw [hnone]
    simp
  · rw [hadd]
    simp only [List.length_append, List.length_cons, List.length_nil]
    have := filter_key_length s.charactersById id hkeys hfind
    omega
  · rw [hadd]
    intro hmem
    simp only [List.map_append, List.mem_append, List.map_cons, List.map_nil,
      List.mem_singleton] at hmem
    rcases hmem with hmem | hmem
    · obtain ⟨ch, hch, hcid⟩ := List.mem_map.mp hmem
      have hzero := countP_eraseP_eq_zero (fun ch => ch.cid == c.cid) s.characters hcount
      have hpos : 0 < (s.characters.eraseP (fun ch => ch.cid == c.cid)).countP
          (fun ch => ch.cid == c.cid) :=
        List.countP_pos_iff.mpr ⟨ch, hch, by simp [hcid]⟩
      omega
    · exact absurd hmem.symm (Nat.ne_of_gt hfresh)
  · rw [hadd]
    intro hb
    simp [hb]
  · rw [hadd]
    intro hmem
    simp only [List.mem_append, List.mem_singleton] at hmem
    rcases hmem with hmem | hmem
    · have := (List.mem_filter.mp hmem).2
      simp at this
    · exact absurd hmem.symm (Nat.ne_of_gt hfreshsp)
  · rw [hadd]
    simp only [List.map_append, List.map_cons, List.map_nil]
    refine List.Nodup.append ?_ (by simp) ?_
    · exact List.Nodup.sublist ((List.filter_sublist _).map Prod.fst) hkeys
    · intro a hmem hmem2
      simp only [List.mem_singleton] at hmem2
      obtain ⟨kv, hkv, hfst⟩ := List.mem_map.mp hmem
      have := (List.mem_filter.mp hkv).2
      rw [hmem2] at hfst
      simp [hfst] at this

/-- Witness for C7: re-adding id bob over a registry already holding a bob
with a live bubble. -/
theorem C7_duplicate_add_replaces_witness :
    (CharacterManager.addCharacter cmEx "bob").2.characters.length
      = cmEx.characters.length
  ∧ CharacterManager.getCharacter (CharacterManager.addCharacter cmEx "bob").2 "bob"
      = some (CharacterManager.addCharacter cmEx "bob").1
  ∧ (CharacterManager.addCharacter cmEx "bob").2.charactersById.length
      = cmEx.charactersById.length
  ∧ (¬ 0 ∈ (CharacterManager.addCharacter cmEx "bob").2.characters.map MChar.cid)
  ∧ (true = true → 0 ∈ (CharacterManager.addCharacter cmEx "bob").2.destroyedBubbles)
  ∧ (¬ 0 ∈ (CharacterManager.addCharacter cmEx "bob").2.container)
  ∧ ((CharacterManager.addCharacter cmEx "bob").2.charactersById.map Prod.fst).Nodup :=
  C7_duplicate_add_replaces cmEx "bob" { cid := 0, sprite := 0, hasBubble := true }
    (by decide) (by decide) (by decide) (by decide) (by decide)
